import Mathlib

/-!
Shallow embedding of `src/main.py` (KeepBotAlive), a one-shot liveness
monitor: a bounded retry loop around a browser-based page check, with an
SMTP alert sent after all attempts fail.

The external effects (the Selenium WebDriver, `time.sleep`, the SMTP
transport) are modelled by oracles describing what each external call
would do, and every embedded function returns the list of observable
events it performs together with its result value.
-/

/-- Decides whether the character list given second starts with the
character list given first (character-by-character equality, as Python
string comparison: exact and case-sensitive). -/
def startsWithChars : List Char → List Char → Bool
  | [], _ => true
  | _ :: _, [] => false
  | a :: as, b :: bs => (a == b) && startsWithChars as bs

/-- Decides whether `needle` occurs as a contiguous substring of the
second list: the semantics of the Python expression `needle in haystack`
on strings, applied to their character sequences. -/
def charsContain (needle : List Char) : List Char → Bool
  | [] => startsWithChars needle []
  | c :: rest => startsWithChars needle (c :: rest) || charsContain needle rest

/-- Python `needle in haystack` for strings. -/
def pyStrIn (needle haystack : String) : Bool :=
  charsContain needle.data haystack.data

/-- Specification-side predicate, written from the spec sentence: the
needle occurs in the haystack as an exact, case-sensitive, unnormalised
contiguous substring. -/
def IsExactSubstring (needle haystack : String) : Prop :=
  ∃ pre post : String, haystack = pre ++ needle ++ post

/-- Oracle for the navigation plus page-source read performed through the
WebDriver for the configured URL: either the rendered document text, or a
WebDriverException raised while loading the page. -/
inductive FetchOutcome
  | ok (page_source : String)
  | webDriverError
deriving DecidableEq

/-- Embedding of `is_app_alive` (src/main.py lines 108-118): open the URL,
read `driver.page_source` and test `expected_text in page_source`; a
WebDriverException raised while loading is caught and yields `false`. -/
def is_app_alive (fetch : FetchOutcome) (expected_text : String) : Bool :=
  match fetch with
  | .ok page_source => pyStrIn expected_text page_source
  | .webDriverError => false

/-- Observable external events performed by the program. -/
inductive Event
  | attemptStart
  | createSession
  | createFailed
  | livenessCall
  | sessionQuit
  | sleepCall (seconds : Int)
  | notifierCall
  | smtpOpen
deriving DecidableEq

/-- Number of occurrences of an event in a trace. -/
def countE (ev : Event) : List Event → Nat
  | [] => 0
  | x :: xs => (if x = ev then 1 else 0) + countE ev xs

/-- Oracle describing what the external world does during one attempt of
the retry loop. -/
inductive AttemptSpec
  | createRaises
  | fetch (f : FetchOutcome)
  | faultInCheck
deriving DecidableEq

/-- The AttemptResult classification of the spec. -/
inductive AttemptOutcome
  | alive
  | notAlive
  | errored
deriving DecidableEq

/-- Embedding of one iteration of the `while` body of `run_single_check`
(src/main.py lines 180-200): `attempts += 1`; inside `try`, create the
driver and run `is_app_alive`; any exception is caught at the attempt
boundary (`except Exception`); the `finally` block calls `driver.quit()`
whenever the driver was created, including on the early `return` taken
when the application is alive (an exception raised by `quit` itself is
swallowed, so `quit` is still invoked exactly once there).
`createRaises` models `create_webdriver()` itself raising, in which case
`driver` is still `None` in the `finally` block and `quit` is not called.
`faultInCheck` models a non-WebDriverException fault raised inside the
attempt after the driver was created (for example while reading the page
source), which escapes `is_app_alive` and is caught at the attempt
boundary. -/
def runAttempt (s : AttemptSpec) (expected_text : String) :
    List Event × AttemptOutcome :=
  match s with
  | .createRaises =>
      ([.attemptStart, .createFailed], .errored)
  | .fetch f =>
      ([.attemptStart, .createSession, .livenessCall, .sessionQuit],
        if is_app_alive f expected_text then .alive else .notAlive)
  | .faultInCheck =>
      ([.attemptStart, .createSession, .livenessCall, .sessionQuit], .errored)

/-- The result of one attempt. -/
def attemptOutcome (s : AttemptSpec) (expected_text : String) : AttemptOutcome :=
  (runAttempt s expected_text).2

/-- Embedding of the retry loop of `run_single_check` (src/main.py lines
177-205), starting from `attempts` attempts already used (the Python
`attempts` counter).  `att n` says what the world does on attempt number
`n`.  Returns the events performed by the loop and whether the function
returned early because the application was alive. -/
def run_check_loop (att : Nat → AttemptSpec) (expected_text : String)
    (retry_delay_seconds : Int) (max_attempts : Int) (attempts : Nat) :
    List Event × Bool :=
  if _h : (attempts : Int) < max_attempts then
    let r := runAttempt (att (attempts + 1)) expected_text
    if r.2 = AttemptOutcome.alive then
      (r.1, true)
    else if ((attempts + 1 : Nat) : Int) < max_attempts then
      let rest := run_check_loop att expected_text retry_delay_seconds
        max_attempts (attempts + 1)
      (r.1 ++ Event.sleepCall retry_delay_seconds :: rest.1, rest.2)
    else
      (r.1, false)
  else ([], false)
termination_by (max_attempts - (attempts : Int)).toNat
decreasing_by simp_wf; omega

/-- The `email` section of the configuration dictionary; a `none` field
models an absent key.  The fields `sender` and `recipients` embed the
`from` and `to` keys. -/
structure EmailConfig where
  enabled : Option Bool := none
  smtp_host : Option String := none
  smtp_port : Option Int := none
  smtp_username : Option String := none
  smtp_password : Option String := none
  sender : Option String := none
  recipients : Option (List String) := none
  subject : Option String := none
deriving DecidableEq

/-- How `send_alert_email` finishes: the disabled early return; a normal
return after the `try` block, with the message delivered or with a
delivery failure caught and logged; or a KeyError raised by a dictionary
lookup on a missing required key, which escapes the function. -/
inductive SendOutcome
  | disabled
  | delivered (body : String)
  | deliveryErrorCaught
  | uncaughtKeyError (key : String)
deriving DecidableEq

/-- Embedding of `send_alert_email` (src/main.py lines 124-158).
`smtpFails` is the oracle for the SMTP transport: whether anything inside
the `with smtplib.SMTP(...)` block raises.  The `try` begins only at the
SMTP block; the lookups `email_config[k]` for the required keys happen
before it, so a missing key raises a KeyError that is not caught and
escapes the function, modelled by the `uncaughtKeyError` outcome. -/
def send_alert_email (smtpFails : Bool) (email_config : EmailConfig)
    (url expected_text : String) : List Event × SendOutcome :=
  if email_config.enabled.getD false = false then
    ([], .disabled)
  else
    match email_config.smtp_host with
    | none => ([], .uncaughtKeyError "smtp_host")
    | some _smtp_host =>
    match email_config.smtp_port with
    | none => ([], .uncaughtKeyError "smtp_port")
    | some _smtp_port =>
    match email_config.smtp_username with
    | none => ([], .uncaughtKeyError "smtp_username")
    | some _smtp_username =>
    match email_config.smtp_password with
    | none => ([], .uncaughtKeyError "smtp_password")
    | some _smtp_password =>
    match email_config.sender with
    | none => ([], .uncaughtKeyError "from")
    | some _email_from =>
    match email_config.recipients with
    | none => ([], .uncaughtKeyError "to")
    | some _email_to =>
    let _subject := email_config.subject.getD "Application is DOWN"
    let body := "The application at " ++ url
      ++ " does not show the expected message: \x27" ++ expected_text
      ++ "\x27.\nPlease check the Render service."
    if smtpFails then
      ([Event.smtpOpen], .deliveryErrorCaught)
    else
      ([Event.smtpOpen], .delivered body)

/-- The top-level configuration dictionary; a `none` field models an
absent key for the keys read with `config.get`. -/
structure Config where
  url : String
  expected_text : String
  retry_delay_seconds : Option Int := none
  max_attempts : Option Int := none
  email : Option EmailConfig := none

/-- How `run_single_check` finishes: the early `return` on a live check,
or falling through to the notification call after all attempts failed
(carrying how the notification call finished). -/
inductive RunResult
  | success
  | exhausted (send_result : SendOutcome)
deriving DecidableEq

/-- Embedding of `run_single_check` (src/main.py lines 164-209): read the
configuration values with their `config.get` defaults, run the retry
loop, and on exhaustion call `send_alert_email`. -/
def run_single_check (att : Nat → AttemptSpec) (smtpFails : Bool)
    (config : Config) : List Event × RunResult :=
  let url := config.url
  let expected_text := config.expected_text
  let retry_delay_seconds := config.retry_delay_seconds.getD 60
  let max_attempts := config.max_attempts.getD 2
  let email_config := config.email.getD {}
  let r := run_check_loop att expected_text retry_delay_seconds max_attempts 0
  if r.2 then
    (r.1, RunResult.success)
  else
    let s := send_alert_email smtpFails email_config url expected_text
    (r.1 ++ Event.notifierCall :: s.1, RunResult.exhausted s.2)

/-- Sample enabled notification configuration with all required keys
present, used to instantiate the C4 theorem. -/
def sampleEmailConfig : EmailConfig :=
  { enabled := some true, smtp_host := some "mail.example.org",
    smtp_port := some 25, smtp_username := some "user",
    smtp_password := some "pass", sender := some "from@example.org",
    recipients := some ["to@example.org"],
    subject := some "Vacation bot on Render is DOWN" }

/-! ### Helper lemmas about traces -/

theorem countE_nil (ev : Event) : countE ev [] = 0 := rfl

theorem countE_cons (ev x : Event) (xs : List Event) :
    countE ev (x :: xs) = (if x = ev then 1 else 0) + countE ev xs := rfl

theorem countE_append (ev : Event) (l1 l2 : List Event) :
    countE ev (l1 ++ l2) = countE ev l1 + countE ev l2 := by
  induction l1 with
  | nil => simp [countE]
  | cons x xs ih => simp [countE, ih, Nat.add_assoc]

/-! ### The substring test -/

theorem startsWithChars_iff (n : List Char) :
    ∀ h : List Char, startsWithChars n h = true ↔ ∃ t, h = n ++ t := by
  induction n with
  | nil => intro h; simp [startsWithChars]
  | cons a as ih =>
    intro h
    cases h with
    | nil => simp [startsWithChars]
    | cons b bs =>
      simp only [startsWithChars, Bool.and_eq_true, beq_iff_eq, ih,
        List.cons_append, List.cons.injEq]
      constructor
      · rintro ⟨rfl, t, rfl⟩
        exact ⟨t, rfl, rfl⟩
      · rintro ⟨t, rfl, rfl⟩
        exact ⟨rfl, t, rfl⟩

theorem charsContain_iff (n : List Char) :
    ∀ h : List Char, charsContain n h = true ↔ ∃ s t, h = s ++ n ++ t := by
  intro h
  induction h with
  | nil =>
    simp only [charsContain, startsWithChars_iff]
    constructor
    · rintro ⟨t, ht⟩
      exact ⟨[], t, by simpa using ht⟩
    · rintro ⟨s, t, ht⟩
      rcases List.append_eq_nil.mp ht.symm with ⟨h1, h2⟩
      rcases List.append_eq_nil.mp h1 with ⟨h3, h4⟩
      exact ⟨t, by simp [h4, h2]⟩
  | cons c rest ih =>
    simp only [charsContain, Bool.or_eq_true, startsWithChars_iff, ih]
    constructor
    · rintro (⟨t, ht⟩ | ⟨s, t, ht⟩)
      · exact ⟨[], t, by simpa using ht⟩
      · exact ⟨c :: s, t, by simp [ht]⟩
    · rintro ⟨s, t, ht⟩
      cases s with
      | nil => exact Or.inl ⟨t, by simpa using ht⟩
      | cons c2 s2 =>
        rw [List.cons_append, List.cons_append, List.cons.injEq] at ht
        exact Or.inr ⟨s2, t, ht.2⟩

theorem pyStrIn_iff (needle haystack : String) :
    pyStrIn needle haystack = true ↔ IsExactSubstring needle haystack := by
  rw [pyStrIn, charsContain_iff, IsExactSubstring]
  constructor
  · rintro ⟨s, t, ht⟩
    refine ⟨⟨s⟩, ⟨t⟩, String.ext ?_⟩
    simpa [String.data_append] using ht
  · rintro ⟨pre, post, rfl⟩
    exact ⟨pre.data, post.data, by simp [String.data_append]⟩

/-- C3: for every url and expected text, when the page fetch succeeds the
liveness check `is_app_alive` returns "alive" (true) if and only if the
expected text occurs as an exact, case-sensitive substring of the full
rendered document text, with no normalization applied. -/
theorem claim_c3_alive_iff_exact_substring (page_source expected_text : String) :
    is_app_alive (FetchOutcome.ok page_source) expected_text = true ↔
      IsExactSubstring expected_text page_source := by
  rw [is_app_alive]
  exact pyStrIn_iff expected_text page_source

/-- C3 witness: the biconditional instantiated at a concrete page and
marker. -/
theorem claim_c3_alive_iff_exact_substring_witness :
    is_app_alive (FetchOutcome.ok "<html>Im alive</html>") "Im alive" = true ↔
      IsExactSubstring "Im alive" "<html>Im alive</html>" :=
  claim_c3_alive_iff_exact_substring "<html>Im alive</html>" "Im alive"

/-! ### Per-attempt lemmas -/

theorem runAttempt_count_attemptStart (s : AttemptSpec) (e : String) :
    countE Event.attemptStart (runAttempt s e).1 = 1 := by
  cases s <;> simp [runAttempt, countE]

theorem runAttempt_count_notifier (s : AttemptSpec) (e : String) :
    countE Event.notifierCall (runAttempt s e).1 = 0 := by
  cases s <;> simp [runAttempt, countE]

theorem runAttempt_count_smtp (s : AttemptSpec) (e : String) :
    countE Event.smtpOpen (runAttempt s e).1 = 0 := by
  cases s <;> simp [runAttempt, countE]

theorem runAttempt_count_sleep (s : AttemptSpec) (e : String) (d : Int) :
    countE (Event.sleepCall d) (runAttempt s e).1 = 0 := by
  cases s <;> simp [runAttempt, countE]

theorem runAttempt_no_sleep_mem (s : AttemptSpec) (e : String) (d : Int) :
    Event.sleepCall d ∉ (runAttempt s e).1 := by
  cases s <;> simp [runAttempt]

theorem runAttempt_count_liveness_le (s : AttemptSpec) (e : String) :
    countE Event.livenessCall (runAttempt s e).1 ≤ 1 := by
  cases s <;> simp [runAttempt, countE]

/-! ### Lemmas about the notification call -/

theorem send_events_eq (smtpFails : Bool) (ec : EmailConfig)
    (url expected_text : String) :
    (send_alert_email smtpFails ec url expected_text).1 = [] ∨
      (send_alert_email smtpFails ec url expected_text).1 = [Event.smtpOpen] := by
  unfold send_alert_email
  repeat' split
  all_goals simp

theorem send_count_ev (smtpFails : Bool) (ec : EmailConfig)
    (url expected_text : String) (ev : Event) (h : ev ≠ Event.smtpOpen) :
    countE ev (send_alert_email smtpFails ec url expected_text).1 = 0 := by
  rcases send_events_eq smtpFails ec url expected_text with h1 | h1 <;>
    simp [h1, countE, Ne.symm h]

theorem send_mem_smtp (smtpFails : Bool) (ec : EmailConfig)
    (url expected_text : String) (x : Event)
    (hx : x ∈ (send_alert_email smtpFails ec url expected_text).1) :
    x = Event.smtpOpen := by
  rcases send_events_eq smtpFails ec url expected_text with h1 | h1
  · rw [h1] at hx
    exact absurd hx (List.not_mem_nil x)
  · rw [h1] at hx
    simpa using hx

/-- C4 counterexample: with notifications enabled but the `smtp_host` key
absent, the lookup `email_config["smtp_host"]` happens before the `try`
block, so the KeyError raised during message composition is not caught
and escapes `send_alert_email` instead of being reported as a delivery
error. -/
theorem claim_c4_counterexample :
    send_alert_email false { enabled := some true } "https://x.example/" "marker"
      = ([], SendOutcome.uncaughtKeyError "smtp_host") := by
  rfl

/-- C4 (amended): for every notification configuration with enabled true
in which all required keys are present, every failure raised during the
SMTP delivery phase (the block from opening the transport through
sending) is caught and reported as a delivery error, and
`send_alert_email` returns normally; composition-phase failures such as a
missing required key are not covered and escape. -/
theorem claim_c4_delivery_errors_caught (smtpFails : Bool) (ec : EmailConfig)
    (url expected_text : String)
    (hen : ec.enabled.getD false = true)
    (hhost : ec.smtp_host.isSome = true)
    (hport : ec.smtp_port.isSome = true)
    (huser : ec.smtp_username.isSome = true)
    (hpass : ec.smtp_password.isSome = true)
    (hfrom : ec.sender.isSome = true)
    (hto : ec.recipients.isSome = true) :
    send_alert_email smtpFails ec url expected_text =
      ([Event.smtpOpen],
        if smtpFails then SendOutcome.deliveryErrorCaught
        else SendOutcome.delivered ("The application at " ++ url
          ++ " does not show the expected message: \x27" ++ expected_text
          ++ "\x27.\nPlease check the Render service.")) := by
  obtain ⟨v1, h1⟩ := Option.isSome_iff_exists.mp hhost
  obtain ⟨v2, h2⟩ := Option.isSome_iff_exists.mp hport
  obtain ⟨v3, h3⟩ := Option.isSome_iff_exists.mp huser
  obtain ⟨v4, h4⟩ := Option.isSome_iff_exists.mp hpass
  obtain ⟨v5, h5⟩ := Option.isSome_iff_exists.mp hfrom
  obtain ⟨v6, h6⟩ := Option.isSome_iff_exists.mp hto
  simp only [send_alert_email, hen, h1, h2, h3, h4, h5, h6]
  cases smtpFails <;> simp

/-- C4 witness: with a fully populated enabled configuration, a failing
SMTP transport is caught and reported rather than escaping. -/
theorem claim_c4_delivery_errors_caught_witness :
    sampleEmailConfig.enabled.getD false = true ∧
    send_alert_email true sampleEmailConfig "https://x.example/" "marker"
      = ([Event.smtpOpen], SendOutcome.deliveryErrorCaught) :=
  ⟨rfl, by
    simpa using claim_c4_delivery_errors_caught true sampleEmailConfig
      "https://x.example/" "marker" rfl rfl rfl rfl rfl rfl rfl⟩

/-! ### Lemmas about the retry loop -/

theorem run_check_loop_stop (att : Nat → AttemptSpec) (e : String)
    (d M : Int) (a : Nat) (h : ¬ ((a : Int) < M)) :
    run_check_loop att e d M a = ([], false) := by
  rw [run_check_loop]
  simp [dif_neg h]

theorem loop_count_notifier (att : Nat → AttemptSpec) (e : String)
    (d M : Int) (a : Nat) :
    countE Event.notifierCall (run_check_loop att e d M a).1 = 0 := by
  induction a using run_check_loop.induct att e d M with
  | case1 a h r halive =>
    rw [run_check_loop]
    simp only [dif_pos h, if_pos halive]
    exact runAttempt_count_notifier _ _
  | case2 a h r halive hlt ih =>
    rw [run_check_loop]
    simp only [dif_pos h, if_neg halive, if_pos hlt, countE_append, countE_cons]
    simp [runAttempt_count_notifier, ih]
  | case3 a h r halive hlt =>
    rw [run_check_loop]
    simp only [dif_pos h, if_neg halive, if_neg hlt]
    exact runAttempt_count_notifier _ _
  | case4 a h =>
    rw [run_check_loop]
    simp only [dif_neg h]
    rfl

theorem loop_count_smtp (att : Nat → AttemptSpec) (e : String)
    (d M : Int) (a : Nat) :
    countE Event.smtpOpen (run_check_loop att e d M a).1 = 0 := by
  induction a using run_check_loop.induct att e d M with
  | case1 a h r halive =>
    rw [run_check_loop]
    simp only [dif_pos h, if_pos halive]
    exact runAttempt_count_smtp _ _
  | case2 a h r halive hlt ih =>
    rw [run_check_loop]
    simp only [dif_pos h, if_neg halive, if_pos hlt, countE_append, countE_cons]
    simp [runAttempt_count_smtp, ih]
  | case3 a h r halive hlt =>
    rw [run_check_loop]
    simp only [dif_pos h, if_neg halive, if_neg hlt]
    exact runAttempt_count_smtp _ _
  | case4 a h =>
    rw [run_check_loop]
    simp only [dif_neg h]
    rfl

theorem loop_sleep_mem (att : Nat → AttemptSpec) (e : String)
    (d M : Int) (a : Nat) (d2 : Int)
    (hmem : Event.sleepCall d2 ∈ (run_check_loop att e d M a).1) : d2 = d := by
  induction a using run_check_loop.induct att e d M with
  | case1 a h r halive =>
    rw [run_check_loop] at hmem
    simp only [dif_pos h, if_pos halive] at hmem
    exact absurd hmem (runAttempt_no_sleep_mem _ _ _)
  | case2 a h r halive hlt ih =>
    rw [run_check_loop] at hmem
    simp only [dif_pos h, if_neg halive, if_pos hlt, List.mem_append,
      List.mem_cons] at hmem
    rcases hmem with hmem | hmem | hmem
    · exact absurd hmem (runAttempt_no_sleep_mem _ _ _)
    · exact (Event.sleepCall.injEq d2 d).mp hmem
    · exact ih hmem
  | case3 a h r halive hlt =>
    rw [run_check_loop] at hmem
    simp only [dif_pos h, if_neg halive, if_neg hlt] at hmem
    exact absurd hmem (runAttempt_no_sleep_mem _ _ _)
  | case4 a h =>
    rw [run_check_loop] at hmem
    simp only [dif_neg h] at hmem
    exact absurd hmem (List.not_mem_nil _)

theorem loop_result_iff (att : Nat → AttemptSpec) (e : String)
    (d M : Int) (a : Nat) :
    (run_check_loop att e d M a).2 = true ↔
      ∃ n : Nat, a < n ∧ (n : Int) ≤ M ∧ attemptOutcome (att n) e = AttemptOutcome.alive := by
  induction a using run_check_loop.induct att e d M with
  | case1 a h r halive =>
    rw [run_check_loop]
    simp only [dif_pos h, if_pos halive]
    simp only [true_iff]
    exact ⟨a + 1, Nat.lt_succ_self a, by omega, halive⟩
  | case2 a h r halive hlt ih =>
    rw [run_check_loop]
    simp only [dif_pos h, if_neg halive, if_pos hlt]
    rw [ih]
    constructor
    · rintro ⟨n, hn1, hn2, hn3⟩
      exact ⟨n, by omega, hn2, hn3⟩
    · rintro ⟨n, hn1, hn2, hn3⟩
      refine ⟨n, ?_, hn2, hn3⟩
      rcases Nat.lt_or_ge (a + 1) n with hlt2 | hge
      · exact hlt2
      · have : n = a + 1 := by omega
        rw [this] at hn3
        exact absurd hn3 halive
  | case3 a h r halive hlt =>
    rw [run_check_loop]
    simp only [dif_pos h, if_neg halive, if_neg hlt]
    simp only [Bool.false_eq_true, false_iff]
    rintro ⟨n, hn1, hn2, hn3⟩
    have : n = a + 1 := by omega
    rw [this] at hn3
    exact absurd hn3 halive
  | case4 a h =>
    rw [run_check_loop]
    simp only [dif_neg h]
    simp only [Bool.false_eq_true, false_iff]
    rintro ⟨n, hn1, hn2, hn3⟩
    omega

theorem loop_count_liveness_le (att : Nat → AttemptSpec) (e : String)
    (d M : Int) (a : Nat) :
    countE Event.livenessCall (run_check_loop att e d M a).1 ≤ (M - (a : Int)).toNat := by
  induction a using run_check_loop.induct att e d M with
  | case1 a h r halive =>
    rw [run_check_loop]
    simp only [dif_pos h, if_pos halive]
    have := runAttempt_count_liveness_le (att (a + 1)) e
    omega
  | case2 a h r halive hlt ih =>
    rw [run_check_loop]
    simp only [dif_pos h, if_neg halive, if_pos hlt, countE_append, countE_cons]
    have h1 := runAttempt_count_liveness_le (att (a + 1)) e
    have h2 : (Event.sleepCall d = Event.livenessCall) = False := by simp
    simp only [h2, if_false]
    omega
  | case3 a h r halive hlt =>
    rw [run_check_loop]
    simp only [dif_pos h, if_neg halive, if_neg hlt]
    have := runAttempt_count_liveness_le (att (a + 1)) e
    omega
  | case4 a h =>
    rw [run_check_loop]
    simp only [dif_neg h]
    simp [countE]

theorem loop_count_liveness_stop (att : Nat → AttemptSpec) (e : String)
    (d M : Int) (a : Nat) (n : Nat) (hn : a < n)
    (halive2 : attemptOutcome (att n) e = AttemptOutcome.alive) :
    countE Event.livenessCall (run_check_loop att e d M a).1 ≤ n - a := by
  induction a using run_check_loop.induct att e d M with
  | case1 a h r halive =>
    rw [run_check_loop]
    simp only [dif_pos h, if_pos halive]
    have := runAttempt_count_liveness_le (att (a + 1)) e
    omega
  | case2 a h r halive hlt ih =>
    rw [run_check_loop]
    simp only [dif_pos h, if_neg halive, if_pos hlt, countE_append, countE_cons]
    have h1 := runAttempt_count_liveness_le (att (a + 1)) e
    have h2 : (Event.sleepCall d = Event.livenessCall) = False := by simp
    simp only [h2, if_false]
    have hne : n ≠ a + 1 := by
      intro hcontra
      rw [hcontra] at halive2
      exact absurd halive2 halive
    have := ih (by omega)
    omega
  | case3 a h r halive hlt =>
    rw [run_check_loop]
    simp only [dif_pos h, if_neg halive, if_neg hlt]
    have := runAttempt_count_liveness_le (att (a + 1)) e
    omega
  | case4 a h =>
    rw [run_check_loop]
    simp only [dif_neg h]
    simp [countE]

theorem loop_count_attemptStart_le (att : Nat → AttemptSpec) (e : String)
    (d M : Int) (a : Nat) :
    countE Event.attemptStart (run_check_loop att e d M a).1 ≤ (M - (a : Int)).toNat := by
  induction a using run_check_loop.induct att e d M with
  | case1 a h r halive =>
    rw [run_check_loop]
    simp only [dif_pos h, if_pos halive]
    have := runAttempt_count_attemptStart (att (a + 1)) e
    omega
  | case2 a h r halive hlt ih =>
    rw [run_check_loop]
    simp only [dif_pos h, if_neg halive, if_pos hlt, countE_append, countE_cons]
    have h1 := runAttempt_count_attemptStart (att (a + 1)) e
    have h2 : (Event.sleepCall d = Event.attemptStart) = False := by simp
    simp only [h2, if_false]
    omega
  | case3 a h r halive hlt =>
    rw [run_check_loop]
    simp only [dif_pos h, if_neg halive, if_neg hlt]
    have := runAttempt_count_attemptStart (att (a + 1)) e
    omega
  | case4 a h =>
    rw [run_check_loop]
    simp only [dif_neg h]
    simp [countE]

theorem loop_sleep_plus_one (att : Nat → AttemptSpec) (e : String)
    (d M : Int) (a : Nat) (ha : (a : Int) < M) :
    countE (Event.sleepCall d) (run_check_loop att e d M a).1 + 1 =
      countE Event.attemptStart (run_check_loop att e d M a).1 := by
  induction a using run_check_loop.induct att e d M with
  | case1 a h r halive =>
    rw [run_check_loop]
    simp only [dif_pos h, if_pos halive]
    rw [runAttempt_count_sleep, runAttempt_count_attemptStart]
  | case2 a h r halive hlt ih =>
    rw [run_check_loop]
    simp only [dif_pos h, if_neg halive, if_pos hlt, countE_append, countE_cons]
    rw [runAttempt_count_sleep, runAttempt_count_attemptStart]
    have h2 : (Event.sleepCall d = Event.sleepCall d) = True := by simp
    have h3 : (Event.sleepCall d = Event.attemptStart) = False := by simp
    simp only [h2, h3, if_true, if_false]
    have := ih hlt
    omega
  | case3 a h r halive hlt =>
    rw [run_check_loop]
    simp only [dif_pos h, if_neg halive, if_neg hlt]
    rw [runAttempt_count_sleep, runAttempt_count_attemptStart]
  | case4 a h =>
    exact absurd ha h

/-! ### Unfolding the one-shot check by the loop result -/

theorem run_single_check_of_alive (att : Nat → AttemptSpec) (smtpFails : Bool)
    (config : Config)
    (h : (run_check_loop att config.expected_text (config.retry_delay_seconds.getD 60)
      (config.max_attempts.getD 2) 0).2 = true) :
    run_single_check att smtpFails config =
      ((run_check_loop att config.expected_text (config.retry_delay_seconds.getD 60)
        (config.max_attempts.getD 2) 0).1, RunResult.success) := by
  simp [run_single_check, h]

theorem run_single_check_of_exhausted (att : Nat → AttemptSpec) (smtpFails : Bool)
    (config : Config)
    (h : (run_check_loop att config.expected_text (config.retry_delay_seconds.getD 60)
      (config.max_attempts.getD 2) 0).2 = false) :
    run_single_check att smtpFails config =
      ((run_check_loop att config.expected_text (config.retry_delay_seconds.getD 60)
        (config.max_attempts.getD 2) 0).1 ++
        Event.notifierCall ::
          (send_alert_email smtpFails (config.email.getD {}) config.url
            config.expected_text).1,
        RunResult.exhausted
          (send_alert_email smtpFails (config.email.getD {}) config.url
            config.expected_text).2) := by
  simp [run_single_check, h]

/-- C1: for every configuration with `max_attempts` at least 1, the alert
notifier `send_alert_email` is called exactly once if and only if every
attempt from 1 to `max_attempts` returned not-alive or errored; if any
attempt in that range returns alive the notifier is never called. -/
theorem claim_c1_notify_iff_all_attempts_failed (att : Nat → AttemptSpec)
    (smtpFails : Bool) (config : Config) (m : Int)
    (hm : config.max_attempts = some m) (_hm1 : 1 ≤ m) :
    (countE Event.notifierCall (run_single_check att smtpFails config).1 = 1 ↔
      ∀ n : Nat, 1 ≤ n → (n : Int) ≤ m →
        attemptOutcome (att n) config.expected_text ≠ AttemptOutcome.alive) ∧
    ((∃ n : Nat, 1 ≤ n ∧ (n : Int) ≤ m ∧
        attemptOutcome (att n) config.expected_text = AttemptOutcome.alive) →
      countE Event.notifierCall (run_single_check att smtpFails config).1 = 0) := by
  have hgd : config.max_attempts.getD 2 = m := by rw [hm]; rfl
  have hiff := loop_result_iff att config.expected_text
    (config.retry_delay_seconds.getD 60) (config.max_attempts.getD 2) 0
  cases hres : (run_check_loop att config.expected_text
      (config.retry_delay_seconds.getD 60) (config.max_attempts.getD 2) 0).2 with
  | false =>
    rw [hres] at hiff
    rw [hgd] at hiff
    have hall : ∀ n : Nat, 1 ≤ n → (n : Int) ≤ m →
        attemptOutcome (att n) config.expected_text ≠ AttemptOutcome.alive := by
      intro n hn1 hn2 hn3
      have : (false : Bool) = true := hiff.mpr ⟨n, by omega, hn2, hn3⟩
      simp at this
    rw [run_single_check_of_exhausted att smtpFails config hres]
    simp only [countE_append, countE_cons, loop_count_notifier]
    rw [send_count_ev smtpFails (config.email.getD {}) config.url
      config.expected_text Event.notifierCall (by simp)]
    constructor
    · simp only [eq_self_iff_true, if_true]
      exact ⟨fun _ => hall, fun _ => trivial⟩
    · intro hex
      obtain ⟨n, hn1, hn2, hn3⟩ := hex
      exact absurd hn3 (hall n hn1 hn2)
  | true =>
    rw [hres] at hiff
    rw [hgd] at hiff
    obtain ⟨n, hn1, hn2, hn3⟩ := hiff.mp rfl
    rw [run_single_check_of_alive att smtpFails config hres]
    simp only [loop_count_notifier]
    constructor
    · constructor
      · intro h0
        exact absurd h0 (by omega)
      · intro hall
        exact absurd hn3 (hall n (by omega) hn2)
    · intro _
      trivial

/-- C1 witness: with two attempts that both see a page without the
marker, the notifier is called exactly once. -/
theorem claim_c1_notify_iff_all_attempts_failed_witness :
    ({ url := "u", expected_text := "up", max_attempts := some 2 } : Config).max_attempts
        = some 2 ∧ (1 : Int) ≤ 2 ∧
    (countE Event.notifierCall
        (run_single_check (fun _ => AttemptSpec.fetch (FetchOutcome.ok "down")) false
          { url := "u", expected_text := "up", max_attempts := some 2 }).1 = 1 ↔
      ∀ n : Nat, 1 ≤ n → (n : Int) ≤ 2 →
        attemptOutcome ((fun _ => AttemptSpec.fetch (FetchOutcome.ok "down")) n)
          ({ url := "u", expected_text := "up", max_attempts := some 2 } : Config).expected_text
          ≠ AttemptOutcome.alive) :=
  ⟨rfl, by norm_num,
    (claim_c1_notify_iff_all_attempts_failed
      (fun _ => AttemptSpec.fetch (FetchOutcome.ok "down")) false
      { url := "u", expected_text := "up", max_attempts := some 2 } 2 rfl
      (by norm_num)).1⟩

/-- The full run trace counts any event other than the notifier call and
the SMTP session exactly as the loop trace does. -/
theorem run_trace_count_eq_loop (att : Nat → AttemptSpec) (smtpFails : Bool)
    (config : Config) (ev : Event) (hev1 : ev ≠ Event.notifierCall)
    (hev2 : ev ≠ Event.smtpOpen) :
    countE ev (run_single_check att smtpFails config).1 =
      countE ev (run_check_loop att config.expected_text
        (config.retry_delay_seconds.getD 60) (config.max_attempts.getD 2) 0).1 := by
  cases hres : (run_check_loop att config.expected_text
      (config.retry_delay_seconds.getD 60) (config.max_attempts.getD 2) 0).2 with
  | false =>
    rw [run_single_check_of_exhausted att smtpFails config hres]
    simp only [countE_append, countE_cons]
    rw [send_count_ev smtpFails (config.email.getD {}) config.url
      config.expected_text ev hev2]
    simp [Ne.symm hev1]
  | true =>
    rw [run_single_check_of_alive att smtpFails config hres]

/-- C2: for every configuration with `max_attempts` at least 1, the
number of `is_app_alive` invocations performed by `run_single_check`
never exceeds `max_attempts`, and after the first invocation that
returned alive (say on attempt `n`) no further invocations occur: the
total number of invocations is at most `n`. -/
theorem claim_c2_liveness_calls_bounded (att : Nat → AttemptSpec)
    (smtpFails : Bool) (config : Config) (m : Int)
    (hm : config.max_attempts = some m) (_hm1 : 1 ≤ m) :
    countE Event.livenessCall (run_single_check att smtpFails config).1 ≤ m.toNat ∧
    ∀ n : Nat, 1 ≤ n → (n : Int) ≤ m →
      attemptOutcome (att n) config.expected_text = AttemptOutcome.alive →
      countE Event.livenessCall (run_single_check att smtpFails config).1 ≤ n := by
  have hgd : config.max_attempts.getD 2 = m := by rw [hm]; rfl
  rw [run_trace_count_eq_loop att smtpFails config Event.livenessCall
    (by simp) (by simp)]
  constructor
  · have := loop_count_liveness_le att config.expected_text
      (config.retry_delay_seconds.getD 60) (config.max_attempts.getD 2) 0
    rw [← hgd]
    omega
  · intro n hn1 _hn2 hn3
    have := loop_count_liveness_stop att config.expected_text
      (config.retry_delay_seconds.getD 60) (config.max_attempts.getD 2) 0 n
      (by omega) hn3
    omega

/-- C2 witness: the application is alive on the first of three allowed
attempts, so at most one liveness invocation occurs. -/
theorem claim_c2_liveness_calls_bounded_witness :
    ({ url := "u", expected_text := "up", max_attempts := some 3 } : Config).max_attempts
        = some 3 ∧ (1 : Int) ≤ 3 ∧
    countE Event.livenessCall
      (run_single_check (fun _ => AttemptSpec.fetch (FetchOutcome.ok "it is up now"))
        false { url := "u", expected_text := "up", max_attempts := some 3 }).1
      ≤ (3 : Int).toNat :=
  ⟨rfl, by norm_num,
    (claim_c2_liveness_calls_bounded
      (fun _ => AttemptSpec.fetch (FetchOutcome.ok "it is up now")) false
      { url := "u", expected_text := "up", max_attempts := some 3 } 3 rfl
      (by norm_num)).1⟩

/-- C6: in every run with `max_attempts` at least 1, exactly one blocking
pause occurs between each pair of consecutive attempts when more attempts
remain, and none after the final attempt or after an alive attempt: the
number of pauses is exactly the number of attempts executed minus one,
and every pause is of `retry_delay_seconds`. -/
theorem claim_c6_one_pause_between_attempts (att : Nat → AttemptSpec)
    (smtpFails : Bool) (config : Config) (m : Int)
    (hm : config.max_attempts = some m) (hm1 : 1 ≤ m) :
    countE (Event.sleepCall (config.retry_delay_seconds.getD 60))
        (run_single_check att smtpFails config).1 + 1 =
      countE Event.attemptStart (run_single_check att smtpFails config).1 ∧
    ∀ d2 : Int, Event.sleepCall d2 ∈ (run_single_check att smtpFails config).1 →
      d2 = config.retry_delay_seconds.getD 60 := by
  have hgd : config.max_attempts.getD 2 = m := by rw [hm]; rfl
  constructor
  · rw [run_trace_count_eq_loop att smtpFails config
      (Event.sleepCall (config.retry_delay_seconds.getD 60)) (by simp) (by simp)]
    rw [run_trace_count_eq_loop att smtpFails config Event.attemptStart
      (by simp) (by simp)]
    exact loop_sleep_plus_one att config.expected_text
      (config.retry_delay_seconds.getD 60) (config.max_attempts.getD 2) 0
      (by rw [hgd]; omega)
  · intro d2 hmem
    cases hres : (run_check_loop att config.expected_text
        (config.retry_delay_seconds.getD 60) (config.max_attempts.getD 2) 0).2 with
    | false =>
      rw [run_single_check_of_exhausted att smtpFails config hres] at hmem
      simp only [List.mem_append, List.mem_cons] at hmem
      rcases hmem with hmem | hmem | hmem
      · exact loop_sleep_mem att config.expected_text
          (config.retry_delay_seconds.getD 60) (config.max_attempts.getD 2) 0 d2 hmem
      · exact absurd hmem (by simp)
      · exact absurd (send_mem_smtp smtpFails (config.email.getD {}) config.url
          config.expected_text _ hmem) (by simp)
    | true =>
      rw [run_single_check_of_alive att smtpFails config hres] at hmem
      exact loop_sleep_mem att config.expected_text
        (config.retry_delay_seconds.getD 60) (config.max_attempts.getD 2) 0 d2 hmem

/-- C6 witness: two failing attempts with a 7-second delay produce
exactly one pause for the two attempts. -/
theorem claim_c6_one_pause_between_attempts_witness :
    ({ url := "u", expected_text := "up", retry_delay_seconds := some 7, max_attempts := some 2 } : Config).max_attempts = some 2 ∧
    (1 : Int) ≤ 2 ∧
    countE (Event.sleepCall (({ url := "u", expected_text := "up", retry_delay_seconds := some 7, max_attempts := some 2 } : Config).retry_delay_seconds.getD 60)) (run_single_check (fun _ => AttemptSpec.fetch (FetchOutcome.ok "down")) false { url := "u", expected_text := "up", retry_delay_seconds := some 7, max_attempts := some 2 }).1 + 1 =
      countE Event.attemptStart (run_single_check (fun _ => AttemptSpec.fetch (FetchOutcome.ok "down")) false { url := "u", expected_text := "up", retry_delay_seconds := some 7, max_attempts := some 2 }).1 :=
  ⟨rfl, by norm_num,
    (claim_c6_one_pause_between_attempts (fun _ => AttemptSpec.fetch (FetchOutcome.ok "down")) false { url := "u", expected_text := "up", retry_delay_seconds := some 7, max_attempts := some 2 } 2 rfl (by norm_num)).1⟩

/-! ### Disabled notification helpers -/

theorem send_disabled (smtpFails : Bool) (ec : EmailConfig)
    (url expected_text : String) (h : ec.enabled.getD false = false) :
    send_alert_email smtpFails ec url expected_text = ([], SendOutcome.disabled) := by
  simp [send_alert_email, h]

theorem run_with_disabled_email (att : Nat → AttemptSpec) (smtpFails : Bool)
    (config : Config) (h : (config.email.getD {}).enabled.getD false = false) :
    ((run_single_check att smtpFails config).2 = RunResult.success ∨
      (run_single_check att smtpFails config).2 = RunResult.exhausted SendOutcome.disabled) ∧
    countE Event.smtpOpen (run_single_check att smtpFails config).1 = 0 := by
  have hsend := send_disabled smtpFails (config.email.getD {}) config.url
    config.expected_text h
  cases hres : (run_check_loop att config.expected_text
      (config.retry_delay_seconds.getD 60) (config.max_attempts.getD 2) 0).2 with
  | false =>
    rw [run_single_check_of_exhausted att smtpFails config hres]
    constructor
    · right
      rw [hsend]
    · simp only [countE_append, countE_cons, loop_count_smtp, hsend]
      simp [countE]
  | true =>
    rw [run_single_check_of_alive att smtpFails config hres]
    exact ⟨Or.inl rfl, loop_count_smtp att config.expected_text
      (config.retry_delay_seconds.getD 60) (config.max_attempts.getD 2) 0⟩

/-- C7: when the notification configuration has enabled false (or
absent), `send_alert_email` returns immediately with the disabled
outcome, performing no events at all — in particular it opens no SMTP
transport session — and the whole run still completes normally, with no
SMTP session opened anywhere in its trace. -/
theorem claim_c7_disabled_notifier_noop :
    (∀ (smtpFails : Bool) (ec : EmailConfig) (url expected_text : String),
        ec.enabled.getD false = false →
        send_alert_email smtpFails ec url expected_text = ([], SendOutcome.disabled)) ∧
    (∀ (att : Nat → AttemptSpec) (smtpFails : Bool) (config : Config),
        (config.email.getD {}).enabled.getD false = false →
        ((run_single_check att smtpFails config).2 = RunResult.success ∨
          (run_single_check att smtpFails config).2 = RunResult.exhausted SendOutcome.disabled) ∧
        countE Event.smtpOpen (run_single_check att smtpFails config).1 = 0) :=
  ⟨send_disabled, run_with_disabled_email⟩

/-- C7 witness: an explicit enabled-false configuration makes the
notifier a no-op with an empty event list. -/
theorem claim_c7_disabled_notifier_noop_witness :
    ({ enabled := some false } : EmailConfig).enabled.getD false = false ∧
    send_alert_email false { enabled := some false } "u" "t"
      = ([], SendOutcome.disabled) :=
  ⟨rfl, claim_c7_disabled_notifier_noop.1 false { enabled := some false } "u" "t" rfl⟩

/-- C8: faults inside an attempt — whether `create_webdriver` raised or a
non-WebDriverException fault was raised during the check — are caught at
the per-attempt boundary and classified as errored, counting as a used
attempt; consequently, for any oracle, the number of attempts started
never exceeds `max_attempts` and every run reaches a terminal state:
either success, or exhaustion with the notifier called exactly once. -/
theorem claim_c8_attempt_faults_contained (att : Nat → AttemptSpec)
    (smtpFails : Bool) (config : Config) :
    (∀ e : String, attemptOutcome AttemptSpec.faultInCheck e = AttemptOutcome.errored ∧
        attemptOutcome AttemptSpec.createRaises e = AttemptOutcome.errored) ∧
    countE Event.attemptStart (run_single_check att smtpFails config).1 ≤
      (config.max_attempts.getD 2).toNat ∧
    ((run_single_check att smtpFails config).2 = RunResult.success ∨
      ((∃ s, (run_single_check att smtpFails config).2 = RunResult.exhausted s) ∧
        countE Event.notifierCall (run_single_check att smtpFails config).1 = 1)) := by
  refine ⟨fun e => ⟨rfl, rfl⟩, ?_, ?_⟩
  · rw [run_trace_count_eq_loop att smtpFails config Event.attemptStart
      (by simp) (by simp)]
    have := loop_count_attemptStart_le att config.expected_text
      (config.retry_delay_seconds.getD 60) (config.max_attempts.getD 2) 0
    omega
  · cases hres : (run_check_loop att config.expected_text
        (config.retry_delay_seconds.getD 60) (config.max_attempts.getD 2) 0).2 with
    | false =>
      right
      rw [run_single_check_of_exhausted att smtpFails config hres]
      refine ⟨⟨_, rfl⟩, ?_⟩
      simp only [countE_append, countE_cons, loop_count_notifier]
      rw [send_count_ev smtpFails (config.email.getD {}) config.url
        config.expected_text Event.notifierCall (by simp)]
      simp
    | true =>
      left
      rw [run_single_check_of_alive att smtpFails config hres]

/-- C9: when `max_attempts` is 0 the loop body never runs: no attempt is
started, no liveness check or rendering session occurs, no pause happens,
and the run proceeds directly to the notifier call, finishing as
exhausted with the notification outcome. -/
theorem claim_c9_zero_max_attempts (att : Nat → AttemptSpec) (smtpFails : Bool)
    (config : Config) (hm : config.max_attempts = some 0) :
    (run_single_check att smtpFails config).1 =
      Event.notifierCall :: (send_alert_email smtpFails (config.email.getD {})
        config.url config.expected_text).1 ∧
    (run_single_check att smtpFails config).2 =
      RunResult.exhausted (send_alert_email smtpFails (config.email.getD {})
        config.url config.expected_text).2 ∧
    countE Event.attemptStart (run_single_check att smtpFails config).1 = 0 ∧
    countE Event.livenessCall (run_single_check att smtpFails config).1 = 0 ∧
    countE Event.createSession (run_single_check att smtpFails config).1 = 0 ∧
    ∀ d2 : Int, Event.sleepCall d2 ∉ (run_single_check att smtpFails config).1 := by
  have hgd : config.max_attempts.getD 2 = 0 := by rw [hm]; rfl
  have hstop := run_check_loop_stop att config.expected_text
    (config.retry_delay_seconds.getD 60) (config.max_attempts.getD 2) 0
    (by rw [hgd]; omega)
  have hres : (run_check_loop att config.expected_text
      (config.retry_delay_seconds.getD 60) (config.max_attempts.getD 2) 0).2 = false := by
    rw [hstop]
  rw [run_single_check_of_exhausted att smtpFails config hres]
  rw [hstop]
  simp only [List.nil_append]
  refine ⟨trivial, trivial, ?_, ?_, ?_, ?_⟩
  · rw [countE_cons, send_count_ev smtpFails (config.email.getD {}) config.url
      config.expected_text Event.attemptStart (by simp)]
    simp
  · rw [countE_cons, send_count_ev smtpFails (config.email.getD {}) config.url
      config.expected_text Event.livenessCall (by simp)]
    simp
  · rw [countE_cons, send_count_ev smtpFails (config.email.getD {}) config.url
      config.expected_text Event.createSession (by simp)]
    simp
  · intro d2 hmem
    simp only [List.mem_cons] at hmem
    rcases hmem with hmem | hmem
    · exact absurd hmem (by simp)
    · exact absurd (send_mem_smtp smtpFails (config.email.getD {}) config.url
        config.expected_text _ hmem) (by simp)

/-- C9 witness: with `max_attempts` 0 no attempt is started. -/
theorem claim_c9_zero_max_attempts_witness :
    ({ url := "u", expected_text := "t", max_attempts := some 0 } : Config).max_attempts = some 0 ∧
    countE Event.attemptStart (run_single_check (fun _ => AttemptSpec.faultInCheck) false { url := "u", expected_text := "t", max_attempts := some 0 }).1 = 0 :=
  ⟨rfl, (claim_c9_zero_max_attempts (fun _ => AttemptSpec.faultInCheck) false
    { url := "u", expected_text := "t", max_attempts := some 0 } rfl).2.2.1⟩

/-- C10: when the configuration has no `email` section at all, the run
still completes: on exhaustion `send_alert_email` receives the empty
notification configuration, treats the missing `enabled` key as false,
and returns immediately with no error, no event, and no transport key
read; the run finishes as success or as exhausted-disabled with no SMTP
session in its trace. -/
theorem claim_c10_missing_email_section (att : Nat → AttemptSpec)
    (smtpFails : Bool) (config : Config) (h : config.email = none) :
    send_alert_email smtpFails (config.email.getD {}) config.url
        config.expected_text = ([], SendOutcome.disabled) ∧
    ((run_single_check att smtpFails config).2 = RunResult.success ∨
      (run_single_check att smtpFails config).2 = RunResult.exhausted SendOutcome.disabled) ∧
    countE Event.smtpOpen (run_single_check att smtpFails config).1 = 0 := by
  have hec : config.email.getD {} = ({} : EmailConfig) := by rw [h]; rfl
  have hen : (config.email.getD {}).enabled.getD false = false := by rw [hec]; rfl
  refine ⟨send_disabled smtpFails (config.email.getD {}) config.url
    config.expected_text hen, ?_⟩
  exact run_with_disabled_email att smtpFails config hen

/-- C10 witness: a configuration with no email section runs to a normal
terminal state with the disabled notification outcome. -/
theorem claim_c10_missing_email_section_witness :
    ({ url := "u", expected_text := "t", max_attempts := some 1 } : Config).email = none ∧
    send_alert_email false (({ url := "u", expected_text := "t", max_attempts := some 1 } : Config).email.getD {}) ({ url := "u", expected_text := "t", max_attempts := some 1 } : Config).url ({ url := "u", expected_text := "t", max_attempts := some 1 } : Config).expected_text = ([], SendOutcome.disabled) :=
  ⟨rfl, (claim_c10_missing_email_section (fun _ => AttemptSpec.createRaises) false
    { url := "u", expected_text := "t", max_attempts := some 1 } rfl).1⟩

/-! ### Session release accounting (claim C5) -/

theorem runAttempt_quit_eq_create (s : AttemptSpec) (e : String) :
    countE Event.sessionQuit (runAttempt s e).1 =
      countE Event.createSession (runAttempt s e).1 := by
  cases s <;> simp [runAttempt, countE]

theorem loop_quit_eq_create (att : Nat → AttemptSpec) (e : String)
    (d M : Int) (a : Nat) :
    countE Event.sessionQuit (run_check_loop att e d M a).1 =
      countE Event.createSession (run_check_loop att e d M a).1 := by
  induction a using run_check_loop.induct att e d M with
  | case1 a h r halive =>
    rw [run_check_loop]
    simp only [dif_pos h, if_pos halive]
    exact runAttempt_quit_eq_create _ _
  | case2 a h r halive hlt ih =>
    rw [run_check_loop]
    simp only [dif_pos h, if_neg halive, if_pos hlt, countE_append, countE_cons]
    have h1 := runAttempt_quit_eq_create (att (a + 1)) e
    have h2 : (Event.sleepCall d = Event.sessionQuit) = False := by simp
    have h3 : (Event.sleepCall d = Event.createSession) = False := by simp
    simp only [h2, h3, if_false]
    omega
  | case3 a h r halive hlt =>
    rw [run_check_loop]
    simp only [dif_pos h, if_neg halive, if_neg hlt]
    exact runAttempt_quit_eq_create _ _
  | case4 a h =>
    rw [run_check_loop]
    simp only [dif_neg h]
    rfl

/-- C5: a rendering session is released exactly once per attempt: in
every attempt in which a session was acquired — equivalently, every
attempt that returned alive, returned not-alive, or raised an error
during fetch or inspection, rather than failing inside
`create_webdriver` itself — `driver.quit()` is invoked exactly once; and
across any whole run of `run_single_check`, the number of `driver.quit()`
invocations equals the number of sessions acquired. -/
theorem claim_c5_session_quit_once (s : AttemptSpec) (expected_text : String)
    (att : Nat → AttemptSpec) (smtpFails : Bool) (config : Config)
    (h : s ≠ AttemptSpec.createRaises) :
    countE Event.sessionQuit (runAttempt s expected_text).1 = 1 ∧
    countE Event.sessionQuit (run_single_check att smtpFails config).1 =
      countE Event.createSession (run_single_check att smtpFails config).1 := by
  constructor
  · cases s with
    | createRaises => exact absurd rfl h
    | fetch f => simp [runAttempt, countE]
    | faultInCheck => simp [runAttempt, countE]
  · rw [run_trace_count_eq_loop att smtpFails config Event.sessionQuit
      (by simp) (by simp)]
    rw [run_trace_count_eq_loop att smtpFails config Event.createSession
      (by simp) (by simp)]
    exact loop_quit_eq_create att config.expected_text
      (config.retry_delay_seconds.getD 60) (config.max_attempts.getD 2) 0

/-- C5 witness: an attempt whose fetch raised a WebDriverException still
invokes the session release exactly once. -/
theorem claim_c5_session_quit_once_witness :
    AttemptSpec.fetch FetchOutcome.webDriverError ≠ AttemptSpec.createRaises ∧
    countE Event.sessionQuit
      (runAttempt (AttemptSpec.fetch FetchOutcome.webDriverError) "marker").1 = 1 :=
  ⟨by decide,
    (claim_c5_session_quit_once (AttemptSpec.fetch FetchOutcome.webDriverError)
      "marker" (fun _ => AttemptSpec.createRaises) false
      { url := "u", expected_text := "marker" } (by decide)).1⟩
